import Mathlib

/-!
Shallow embedding of CartoDB/node-redis-mpool (`index.js`, current promise-based
version built on generic-pool `createPool`).  Pure decision logic of the module
is translated into executable Lean definitions; the asynchronous parts
(connection creation, the manager's pool registry) become explicit state
machines driven by event / operation lists.
-/

namespace RedisMPool

/-- JS record `slowPool`: both fields may be absent (JS `undefined`), hence `Option`. -/
structure SlowPool where
  log : Option Bool
  elapsedThreshold : Option Nat
  deriving DecidableEq, Repr

/-- JS record `emitter`; `statusInterval` may be absent or `null` (`none`). -/
structure Emitter where
  statusInterval : Option Nat
  deriving DecidableEq, Repr

/-- The manager's resolved `this.options` record.  `emitter` is `Option` because a
caller may supply `emitter: null`/`undefined`, which `Object.assign` copies through
(`_getStatusDelay` guards against exactly that with `this.options.emitter && ...`). -/
structure Options where
  host : String
  port : String
  max : Nat
  idleTimeoutMillis : Nat
  reapIntervalMillis : Nat
  noReadyCheck : Bool
  returnToHead : Bool
  unwatchOnRelease : Bool
  name : String
  slowPool : SlowPool
  emitter : Option Emitter
  commands : List String
  deriving DecidableEq, Repr

/-- `DEFAULT_STATUS_INTERVAL = 60000` from `index.js`. -/
def DEFAULT_STATUS_INTERVAL : Nat := 60000

/-- The module-level `DEFAULTS` object of `index.js`. -/
def DEFAULTS : Options :=
  { host := "127.0.0.1"
    port := "6379"
    max := 50
    idleTimeoutMillis := 10000
    reapIntervalMillis := 1000
    noReadyCheck := false
    returnToHead := false
    unwatchOnRelease := true
    name := "default"
    slowPool := { log := some false, elapsedThreshold := some 25 }
    emitter := some { statusInterval := some DEFAULT_STATUS_INTERVAL }
    commands := [] }

/-- The caller-supplied `options` argument of the constructor: a JS object in which
every key may be absent.  For `emitter` the present value may itself be
`null`/`undefined` (`some none`), which `Object.assign` copies as-is. -/
structure PartialOptions where
  host : Option String := none
  port : Option String := none
  max : Option Nat := none
  idleTimeoutMillis : Option Nat := none
  reapIntervalMillis : Option Nat := none
  noReadyCheck : Option Bool := none
  returnToHead : Option Bool := none
  unwatchOnRelease : Option Bool := none
  name : Option String := none
  slowPool : Option SlowPool := none
  emitter : Option (Option Emitter) := none
  commands : Option (List String) := none
  deriving DecidableEq, Repr

/-- `Object.assign({}, DEFAULTS, options)` — a SHALLOW merge: each top-level key
present in `options` replaces the default value wholesale, nested records included. -/
def mergeOptions (p : PartialOptions) : Options :=
  { host := p.host.getD DEFAULTS.host
    port := p.port.getD DEFAULTS.port
    max := p.max.getD DEFAULTS.max
    idleTimeoutMillis := p.idleTimeoutMillis.getD DEFAULTS.idleTimeoutMillis
    reapIntervalMillis := p.reapIntervalMillis.getD DEFAULTS.reapIntervalMillis
    noReadyCheck := p.noReadyCheck.getD DEFAULTS.noReadyCheck
    returnToHead := p.returnToHead.getD DEFAULTS.returnToHead
    unwatchOnRelease := p.unwatchOnRelease.getD DEFAULTS.unwatchOnRelease
    name := p.name.getD DEFAULTS.name
    slowPool := p.slowPool.getD DEFAULTS.slowPool
    emitter := p.emitter.getD DEFAULTS.emitter
    commands := p.commands.getD DEFAULTS.commands }

/-- Keys of the `DEFAULTS` object (the recognized option names). -/
def defaultsKeys : List String :=
  ["host", "port", "max", "idleTimeoutMillis", "reapIntervalMillis", "noReadyCheck",
   "returnToHead", "unwatchOnRelease", "name", "slowPool", "emitter", "commands"]

/-- Methods declared in the `RedisPool` class body of `index.js`. -/
def redisPoolMethods : List String :=
  ["constructor", "acquire", "release", "_addCommands", "_emitStatus", "_getStatusDelay"]

/-- The `config` object `makePool` passes to generic-pool `createPool`. -/
structure PoolConfig where
  max : Nat
  idleTimeoutMillis : Nat
  reapIntervalMillis : Nat
  returnToHead : Bool
  deriving DecidableEq, Repr

/-- The `config` literal inside `makePool`. -/
def makePoolConfig (o : Options) : PoolConfig :=
  { max := o.max
    idleTimeoutMillis := o.idleTimeoutMillis
    reapIntervalMillis := o.reapIntervalMillis
    returnToHead := o.returnToHead }

/-- Keys of the `config` literal inside `makePool`. -/
def poolConfigKeys : List String :=
  ["max", "idleTimeoutMillis", "reapIntervalMillis", "returnToHead"]

/-- `_getStatusDelay`: `(this.options.emitter && this.options.emitter.statusInterval)
|| DEFAULT_STATUS_INTERVAL`.  JS falsiness: a missing/`null` `emitter`, a
missing/`null` `statusInterval`, and the number `0` all fall through to the default. -/
def getStatusDelay (o : Options) : Nat :=
  match o.emitter with
  | none => DEFAULT_STATUS_INTERVAL
  | some em =>
    match em.statusInterval with
    | none => DEFAULT_STATUS_INTERVAL
    | some 0 => DEFAULT_STATUS_INTERVAL
    | some (n + 1) => n + 1

/-- Observable effects of the constructor: `_addCommands` registers the configured
commands, `_emitStatus` unconditionally starts one interval timer whose delay is
`_getStatusDelay()`. -/
structure CtorEffects where
  commandsRegistered : List String
  statusTimerInterval : Nat
  deriving DecidableEq, Repr

/-- The constructor: resolve options, register commands, start the status timer. -/
def constructorEffects (p : PartialOptions) : CtorEffects :=
  { commandsRegistered := (mergeOptions p).commands
    statusTimerInterval := getStatusDelay (mergeOptions p) }

/-- One record passed to `logger.info` by `acquire`. -/
structure LogRecord where
  name : String
  db : Nat
  action : String
  elapsed : Nat
  waiting : Nat
  deriving DecidableEq, Repr

/-- The guard `this.options.slowPool.log && elapsedTime > this.options.slowPool.elapsedThreshold`.
A missing `log` field is falsy; a missing `elapsedThreshold` makes the JS comparison
`elapsed > undefined` evaluate to `false`. -/
def slowLogFires (o : Options) (elapsed : Nat) : Bool :=
  o.slowPool.log.getD false &&
    match o.slowPool.elapsedThreshold with
    | some t => decide (elapsed > t)
    | none => false

/-- The log records emitted by one `acquire` call that measured `elapsed` ms with
`waiting` pending acquirers on the pool. -/
def slowAcquireLog (o : Options) (db elapsed waiting : Nat) : List LogRecord :=
  if slowLogFires o elapsed then
    [{ name := o.name, db := db, action := "acquire", elapsed := elapsed, waiting := waiting }]
  else []

/-- An error object after the `create` error handler tagged it:
`err.name = options.name; err.db = database; err.action = 'create'`. -/
structure TaggedErr where
  name : String
  db : Nat
  action : String
  cause : Nat
  deriving DecidableEq, Repr

/-- `err.name = options.name; err.db = database; err.action = 'create'`. -/
def tagErr (o : Options) (db e : Nat) : TaggedErr :=
  { name := o.name, db := db, action := "create", cause := e }

/-- A value the `create` promise can be fulfilled with: the client itself, a tagged
error (error-event path resolves the error object), or an untagged select error
(ready-path `client.select` callback resolves its `err`). -/
inductive CreateValue
  | client
  | tagged (t : TaggedErr)
  | rawErr (e : Nat)
  deriving DecidableEq, Repr

/-- Asynchronous events that can reach a half-created connection: an `error` event
(node always passes a truthy `Error` object, identified here by a numeric id), or
completion of the `client.select(database, cb)` issued by the `ready` handler,
carrying the select callback's optional error. -/
inductive CreateEvent
  | error (e : Nat)
  | selectDone (err : Option Nat)
  deriving DecidableEq, Repr

/-- State of one `factory.create` promise executor: the `settled` latch, the list of
`resolve(...)` calls made so far, the errors passed to `logger.error`, and whether
`client.end(FLUSH_CONNECTION)` was called. -/
structure CreateState where
  settled : Bool
  resolutions : List CreateValue
  logs : List TaggedErr
  ended : Bool
  deriving DecidableEq, Repr

/-- State right after `redis.createClient` returns and the handlers are installed. -/
def initCreateState : CreateState :=
  { settled := false, resolutions := [], logs := [], ended := false }

/-- One event hitting the `create` executor.  The error handler tags and logs the
error unconditionally, then — only if not yet settled — sets the latch, tears the
client down and resolves with the (truthy, hence tagged-error) value.  The select
callback checks the latch and resolves with the select error or the client. -/
def createStep (o : Options) (db : Nat) (s : CreateState) : CreateEvent → CreateState
  | CreateEvent.error e =>
    let t := tagErr o db e
    let s1 : CreateState := { s with logs := s.logs ++ [t] }
    if s1.settled then s1
    else { s1 with settled := true, ended := true,
                   resolutions := s1.resolutions ++ [CreateValue.tagged t] }
  | CreateEvent.selectDone err =>
    if s.settled then s
    else
      match err with
      | some e => { s with settled := true, resolutions := s.resolutions ++ [CreateValue.rawErr e] }
      | none => { s with settled := true, resolutions := s.resolutions ++ [CreateValue.client] }

/-- Run a sequence of events against a given executor state. -/
def runCreateFrom (o : Options) (db : Nat) (s : CreateState) (events : List CreateEvent) :
    CreateState :=
  events.foldl (createStep o db) s

/-- Run a sequence of events against a fresh `create` executor. -/
def runCreate (o : Options) (db : Nat) (events : List CreateEvent) : CreateState :=
  runCreateFrom o db initCreateState events

/-- Outcome of `await pool.acquire()` for a freshly created resource. -/
inductive AcquireResult
  | ok (v : CreateValue)
  | rejected (v : CreateValue)
  deriving DecidableEq, Repr

/-- Outcome of `Manager.acquire` when the pool must create a fresh connection and
`events` are the asynchronous signals that reach it.  The `create` promise executor
binds only `resolve` (the source comments that rejecting would make generic-pool
loop forever), so the promise can only be fulfilled; generic-pool then fulfils
`pool.acquire()` with that same value, which `acquire` awaits and returns. -/
def acquireFresh (o : Options) (db : Nat) (events : List CreateEvent) :
    Option AcquireResult :=
  ((runCreate o db events).resolutions.head?).map AcquireResult.ok

/-- The two connection-touching steps `Manager.release` can perform, in order. -/
inductive ReleaseEffect
  | unwatch
  | poolRelease
  deriving DecidableEq, Repr

/-- The effect trace of `Manager.release`: `resource.UNWATCH()` when
`unwatchOnRelease` is set, then `pool.release(resource)` when a pool is registered
for the database.  Neither step inspects the other's outcome. -/
def releaseEffects (o : Options) (poolExists : Bool) : List ReleaseEffect :=
  (if o.unwatchOnRelease then [ReleaseEffect.unwatch] else []) ++
    (if poolExists then [ReleaseEffect.poolRelease] else [])

/-- Registry-touching operations on the manager. -/
inductive ManagerOp
  | acquireOp (db : Nat)
  | releaseOp (db : Nat)
  deriving DecidableEq, Repr

/-- The manager's pool registry: `this.pools` as an association list db ↦ pool id,
a counter producing fresh pool identities, and the log of pool creations. -/
structure ManagerState where
  pools : List (Nat × Nat)
  nextId : Nat
  creations : List (Nat × Nat)
  deriving DecidableEq, Repr

/-- The registry at construction time: `this.pools = {}`. -/
def initManagerState : ManagerState := { pools := [], nextId := 0, creations := [] }

/-- JS object lookup `this.pools[database]`. -/
def lookupPool (ps : List (Nat × Nat)) (db : Nat) : Option Nat :=
  match ps with
  | [] => none
  | (d, pid) :: rest => if d = db then some pid else lookupPool rest db

/-- The synchronous registry part of one manager call: `acquire` does
`if (!pool) pool = this.pools[database] = makePool(...)` (check-and-set is atomic
on the event loop: no await before it); `release` never touches the registry. -/
def applyOp (s : ManagerState) : ManagerOp → ManagerState
  | ManagerOp.acquireOp db =>
    match lookupPool s.pools db with
    | some _ => s
    | none =>
      { pools := (db, s.nextId) :: s.pools
        nextId := s.nextId + 1
        creations := s.creations ++ [(db, s.nextId)] }
  | ManagerOp.releaseOp _ => s

/-- Run a sequence of manager calls from the freshly constructed registry. -/
def runOps (ops : List ManagerOp) : ManagerState :=
  ops.foldl applyOp initManagerState

/-- How many pools were ever created for `db`. -/
def creationCount (s : ManagerState) (db : Nat) : Nat :=
  (s.creations.filter (fun c => c.1 == db)).length

/-- Concrete resolved options with slow-pool logging enabled at threshold 25. -/
def slowOpts : Options :=
  mergeOptions { slowPool := some { log := some true, elapsedThreshold := some 25 } }

/-! Helper lemmas. -/

/-- After the latch is set, further events never touch the resolutions, the latch,
or the teardown flag (the error handler only appends a log entry). -/
theorem runCreateFrom_settled_frozen (o : Options) (db : Nat) (events : List CreateEvent)
    (s : CreateState) (h : s.settled = true) :
    (runCreateFrom o db s events).resolutions = s.resolutions ∧
    (runCreateFrom o db s events).settled = true ∧
    (runCreateFrom o db s events).ended = s.ended := by
  induction events generalizing s with
  | nil => exact ⟨rfl, h, rfl⟩
  | cons ev rest ih =>
    have h1 : (createStep o db s ev).resolutions = s.resolutions := by
      cases ev with
      | error e => simp [createStep, h]
      | selectDone err => simp [createStep, h]
    have h2 : (createStep o db s ev).settled = true := by
      cases ev with
      | error e => simp [createStep, h]
      | selectDone err => simp [createStep, h]
    have h3 : (createStep o db s ev).ended = s.ended := by
      cases ev with
      | error e => simp [createStep, h]
      | selectDone err => simp [createStep, h]
    have hfold : runCreateFrom o db s (ev :: rest) =
        runCreateFrom o db (createStep o db s ev) rest := rfl
    obtain ⟨r1, r2, r3⟩ := ih (createStep o db s ev) h2
    rw [hfold]
    exact ⟨r1.trans h1, r2, r3.trans h3⟩

/-- From the fresh state, any single event settles the latch and makes exactly one
call to resolve. -/
theorem createStep_first_event_settles (o : Options) (db : Nat) (ev : CreateEvent) :
    (createStep o db initCreateState ev).settled = true ∧
    (createStep o db initCreateState ev).resolutions.length = 1 := by
  cases ev with
  | error e => simp [createStep, initCreateState]
  | selectDone err =>
    cases err with
    | none => simp [createStep, initCreateState]
    | some e => simp [createStep, initCreateState]

/-- Unfolding of the JS object lookup over a registry with one more binding. -/
theorem lookupPool_cons (d pid db : Nat) (ps : List (Nat × Nat)) :
    lookupPool ((d, pid) :: ps) db = if d = db then some pid else lookupPool ps db := rfl

/-- A registered pool survives any further manager call unchanged. -/
theorem applyOp_lookup_stable (s : ManagerState) (op : ManagerOp) (db pid : Nat)
    (h : lookupPool s.pools db = some pid) :
    lookupPool (applyOp s op).pools db = some pid := by
  cases op with
  | releaseOp d2 => exact h
  | acquireOp d2 =>
    cases hl : lookupPool s.pools d2 with
    | some q => simpa only [applyOp, hl] using h
    | none =>
      have hdd : d2 ≠ db := by
        intro e
        rw [e, h] at hl
        cases hl
      simp [applyOp, hl, lookupPool_cons, hdd, h]

/-- A registered pool survives any sequence of manager calls unchanged. -/
theorem foldl_lookup_stable (ops : List ManagerOp) (s : ManagerState) (db pid : Nat)
    (h : lookupPool s.pools db = some pid) :
    lookupPool (ops.foldl applyOp s).pools db = some pid := by
  induction ops generalizing s with
  | nil => exact h
  | cons op rest ih => exact ih (applyOp s op) (applyOp_lookup_stable s op db pid h)

/-- One manager call registers a pool for db exactly when it is an acquire for a db
not yet registered. -/
theorem applyOp_lookup_isSome (s : ManagerState) (op : ManagerOp) (db : Nat) :
    (lookupPool (applyOp s op).pools db).isSome =
      ((lookupPool s.pools db).isSome || decide (ManagerOp.acquireOp db = op)) := by
  cases op with
  | releaseOp d2 => simp [applyOp]
  | acquireOp d2 =>
    cases hl : lookupPool s.pools d2 with
    | some q =>
      by_cases hdd : d2 = db
      · subst hdd
        simp [applyOp, hl]
      · have hne : ManagerOp.acquireOp db ≠ ManagerOp.acquireOp d2 := by
          intro h
          injection h with h2
          exact hdd h2.symm
        simp [applyOp, hl, hne]
    | none =>
      by_cases hdd : d2 = db
      · subst hdd
        simp [applyOp, hl, lookupPool_cons]
      · have hne : ManagerOp.acquireOp db ≠ ManagerOp.acquireOp d2 := by
          intro h
          injection h with h2
          exact hdd h2.symm
        simp [applyOp, hl, lookupPool_cons, hdd, hne]

/-- After a run, db has a registered pool exactly when the run contains an acquire
for db (or one was registered before). -/
theorem foldl_lookup_isSome (ops : List ManagerOp) (s : ManagerState) (db : Nat) :
    (lookupPool (ops.foldl applyOp s).pools db).isSome =
      ((lookupPool s.pools db).isSome || decide (ManagerOp.acquireOp db ∈ ops)) := by
  induction ops generalizing s with
  | nil => simp
  | cons op rest ih =>
    rw [List.foldl_cons, ih, applyOp_lookup_isSome]
    simp [List.mem_cons, Bool.or_assoc]

/-- Invariant: the number of pool creations for a database is one when it has a
registered pool and zero otherwise. -/
theorem creation_invariant (ops : List ManagerOp) (s : ManagerState)
    (h : ∀ d, creationCount s d = if (lookupPool s.pools d).isSome then 1 else 0) :
    ∀ d, creationCount (ops.foldl applyOp s) d =
      if (lookupPool (ops.foldl applyOp s).pools d).isSome then 1 else 0 := by
  induction ops generalizing s with
  | nil => exact h
  | cons op rest ih =>
    refine ih (applyOp s op) ?_
    intro d
    cases op with
    | releaseOp d2 => exact h d
    | acquireOp d2 =>
      cases hl : lookupPool s.pools d2 with
      | some q => simpa only [applyOp, hl] using h d
      | none =>
        by_cases hdd : d2 = d
        · subst hdd
          have h0 := h d2
          rw [hl] at h0
          simp only [Option.isSome_none, Bool.false_eq_true, if_false] at h0
          simp [applyOp, hl, creationCount, List.filter_append, lookupPool_cons]
          simpa [creationCount] using h0
        · have h0 := h d
          simp only [applyOp, hl]
          simpa [creationCount, List.filter_append, lookupPool_cons, hdd] using h0

/-! Claim theorems. -/

/-- C8: for every sequence of asynchronous error and select-completion events fired
on a half-created connection, the factory's create promise is resolved exactly once:
the first terminal event commits the result, and every subsequent event leaves the
completion unchanged. -/
theorem create_resolves_exactly_once (o : Options) (db : Nat) (ev : CreateEvent)
    (rest : List CreateEvent) :
    (runCreate o db (ev :: rest)).resolutions = (runCreate o db [ev]).resolutions ∧
    (runCreate o db (ev :: rest)).resolutions.length = 1 := by
  obtain ⟨hs, hl⟩ := createStep_first_event_settles o db ev
  have hstep : runCreate o db (ev :: rest) =
      runCreateFrom o db (createStep o db initCreateState ev) rest := rfl
  have hone : runCreate o db [ev] = createStep o db initCreateState ev := rfl
  obtain ⟨r1, _, _⟩ :=
    runCreateFrom_settled_frozen o db rest (createStep o db initCreateState ev) hs
  rw [hstep, hone, r1]
  exact ⟨rfl, hl⟩

/-- C1 counterexample: with default options, database 0, and a connection failure
(error event 7) as the first asynchronous signal, the acquire outcome is a
SUCCESSFUL return whose payload is the tagged error object — the claim that acquire
fails and never successfully returns a resource is false on this input. -/
theorem acquire_error_resolved_as_resource_cex :
    acquireFresh (mergeOptions {}) 0 [CreateEvent.error 7] =
      some (AcquireResult.ok (CreateValue.tagged
        { name := "default", db := 0, action := "create", cause := 7 })) := rfl

/-- C1 (amended): if the factory cannot establish a connection, the error — tagged
with pool name, database id and action "create" on the error-event path, untagged on
the database-selection-failure path — is resolved as the created resource, so
Manager.acquire returns it successfully to the caller; acquire never rejects due to
a creation failure (the create promise executor binds no reject). -/
theorem acquire_creation_failure_returned_not_rejected (o : Options) (db e : Nat)
    (rest events : List CreateEvent) :
    acquireFresh o db (CreateEvent.error e :: rest) =
      some (AcquireResult.ok (CreateValue.tagged (tagErr o db e))) ∧
    acquireFresh o db (CreateEvent.selectDone (some e) :: rest) =
      some (AcquireResult.ok (CreateValue.rawErr e)) ∧
    ∀ v, acquireFresh o db events ≠ some (AcquireResult.rejected v) := by
  refine ⟨?_, ?_, ?_⟩
  · have hs : (createStep o db initCreateState (CreateEvent.error e)).settled = true := by
      simp [createStep, initCreateState]
    obtain ⟨r1, _, _⟩ :=
      runCreateFrom_settled_frozen o db rest (createStep o db initCreateState (CreateEvent.error e)) hs
    have hacq : acquireFresh o db (CreateEvent.error e :: rest) =
        ((runCreateFrom o db (createStep o db initCreateState (CreateEvent.error e))
          rest).resolutions.head?).map AcquireResult.ok := rfl
    rw [hacq, r1]
    rfl
  · have hs : (createStep o db initCreateState (CreateEvent.selectDone (some e))).settled = true := by
      simp [createStep, initCreateState]
    obtain ⟨r1, _, _⟩ :=
      runCreateFrom_settled_frozen o db rest
        (createStep o db initCreateState (CreateEvent.selectDone (some e))) hs
    have hacq : acquireFresh o db (CreateEvent.selectDone (some e) :: rest) =
        ((runCreateFrom o db (createStep o db initCreateState (CreateEvent.selectDone (some e)))
          rest).resolutions.head?).map AcquireResult.ok := rfl
    rw [hacq, r1]
    rfl
  · intro v
    unfold acquireFresh
    cases (runCreate o db events).resolutions.head? with
    | none => simp
    | some x => simp

/-- C2 counterexample: the RedisPool class declares no destroy method — the claimed
process-wide shutdown operation does not exist on the Manager. -/
theorem manager_has_no_destroy_cex : "destroy" ∉ redisPoolMethods := by
  decide

/-- C2 (amended): the Manager exposes no destroy or drain operation of any kind; its
operations are exactly constructor, acquire, release and the private helpers, so the
status-emitter timer is never stopped and no pool is ever drained. -/
theorem manager_exposes_no_shutdown_operation :
    "destroy" ∉ redisPoolMethods ∧ "drain" ∉ redisPoolMethods ∧
    "shutdown" ∉ redisPoolMethods ∧
    "acquire" ∈ redisPoolMethods ∧ "release" ∈ redisPoolMethods := by
  decide

/-- C3 counterexample: neither the config literal handed to createPool nor the
DEFAULTS object contains acquireTimeoutMillis or maxWaitingClients, so the claimed
acquire-timeout and wait-queue-bound settings are not in effect on any created pool. -/
theorem pool_config_lacks_timeout_and_queue_cex :
    "acquireTimeoutMillis" ∉ poolConfigKeys ∧ "maxWaitingClients" ∉ poolConfigKeys ∧
    "acquireTimeoutMillis" ∉ defaultsKeys ∧ "maxWaitingClients" ∉ defaultsKeys := by
  decide

/-- C3 (amended): every created pool is configured only from max, idleTimeoutMillis,
reapIntervalMillis and returnToHead — the pool configuration is a function of those
four options alone — and no acquireTimeoutMillis or maxWaitingClients is defaulted
or forwarded, so the module configures neither an acquire timeout nor a wait-queue
bound (no ACQUIRE_TIMEOUT / QUEUE_FULL behavior arises from its configuration). -/
theorem pool_config_only_four_options (oa ob : Options)
    (hmax : oa.max = ob.max) (hidle : oa.idleTimeoutMillis = ob.idleTimeoutMillis)
    (hreap : oa.reapIntervalMillis = ob.reapIntervalMillis)
    (hret : oa.returnToHead = ob.returnToHead) :
    makePoolConfig oa = makePoolConfig ob ∧
    "acquireTimeoutMillis" ∉ poolConfigKeys ∧ "maxWaitingClients" ∉ poolConfigKeys := by
  refine ⟨?_, by decide, by decide⟩
  simp [makePoolConfig, hmax, hidle, hreap, hret]

/-- C3 witness: the amended theorem applied at two concrete option records that agree
on the four forwarded fields. -/
theorem pool_config_only_four_options_witness :
    makePoolConfig DEFAULTS = makePoolConfig slowOpts ∧
    "acquireTimeoutMillis" ∉ poolConfigKeys :=
  ⟨(pool_config_only_four_options DEFAULTS slowOpts rfl rfl rfl rfl).1,
   (pool_config_only_four_options DEFAULTS slowOpts rfl rfl rfl rfl).2.1⟩

/-- C4: with reset-on-release enabled, release issues UNWATCH on the connection
before handing it back to the pool, and a reset failure — delivered as an error
event on the (already settled) connection — is logged by the connection's error
handler but is not fatal: it neither re-resolves the creation, nor tears the client
down, and the connection is still returned to the pool. -/
theorem release_unwatch_then_pool_and_reset_failure_logged (o : Options) (db e : Nat)
    (s : CreateState) (hu : o.unwatchOnRelease = true) (hs : s.settled = true) :
    releaseEffects o true = [ReleaseEffect.unwatch, ReleaseEffect.poolRelease] ∧
    (createStep o db s (CreateEvent.error e)).logs = s.logs ++ [tagErr o db e] ∧
    (createStep o db s (CreateEvent.error e)).resolutions = s.resolutions ∧
    (createStep o db s (CreateEvent.error e)).ended = s.ended ∧
    (createStep o db s (CreateEvent.error e)).settled = true := by
  refine ⟨?_, ?_, ?_, ?_, ?_⟩
  · simp [releaseEffects, hu]
  · simp [createStep, hs]
  · simp [createStep, hs]
  · simp [createStep, hs]
  · simp [createStep, hs]

/-- C4 witness: the theorem at default options, database 0, error 5 and a concrete
settled creation state. -/
theorem release_unwatch_then_pool_and_reset_failure_logged_witness :
    (mergeOptions {}).unwatchOnRelease = true ∧
    releaseEffects (mergeOptions {}) true = [ReleaseEffect.unwatch, ReleaseEffect.poolRelease] ∧
    (createStep (mergeOptions {}) 0
        { settled := true, resolutions := [CreateValue.client], logs := [], ended := false }
        (CreateEvent.error 5)).logs = [tagErr (mergeOptions {}) 0 5] :=
  ⟨rfl,
   (release_unwatch_then_pool_and_reset_failure_logged (mergeOptions {}) 0 5
      { settled := true, resolutions := [CreateValue.client], logs := [], ended := false }
      rfl rfl).1,
   (release_unwatch_then_pool_and_reset_failure_logged (mergeOptions {}) 0 5
      { settled := true, resolutions := [CreateValue.client], logs := [], ended := false }
      rfl rfl).2.1⟩

/-- C5 counterexample: with default options and no pool registered for the database,
release is NOT a no-op on the passed connection — it still issues UNWATCH. -/
theorem release_without_pool_unwatches_cex :
    releaseEffects (mergeOptions {}) false = [ReleaseEffect.unwatch] ∧
    releaseEffects (mergeOptions {}) false ≠ [] := by
  refine ⟨rfl, by decide⟩

/-- C5 (amended): when no pool is registered for the database, release performs no
pool operation and leaves the Manager's pool registry unchanged, but with
unwatchOnRelease enabled (the default) it still issues UNWATCH on the passed
connection; only with unwatchOnRelease disabled is it a full no-op. -/
theorem release_without_pool_frame (o : Options) (ops : List ManagerOp) (db : Nat) :
    ReleaseEffect.poolRelease ∉ releaseEffects o false ∧
    (o.unwatchOnRelease = true → releaseEffects o false = [ReleaseEffect.unwatch]) ∧
    (o.unwatchOnRelease = false → releaseEffects o false = []) ∧
    applyOp (runOps ops) (ManagerOp.releaseOp db) = runOps ops := by
  refine ⟨?_, ?_, ?_, rfl⟩
  · cases hu : o.unwatchOnRelease <;> simp [releaseEffects, hu]
  · intro hu; simp [releaseEffects, hu]
  · intro hu; simp [releaseEffects, hu]

/-- C5 witness: the amended theorem at default options (UNWATCH still issued) and at
a concrete operation history (registry untouched by release). -/
theorem release_without_pool_frame_witness :
    ReleaseEffect.poolRelease ∉ releaseEffects (mergeOptions {}) false ∧
    releaseEffects (mergeOptions {}) false = [ReleaseEffect.unwatch] ∧
    applyOp (runOps [ManagerOp.acquireOp 1]) (ManagerOp.releaseOp 1) =
      runOps [ManagerOp.acquireOp 1] :=
  ⟨(release_without_pool_frame (mergeOptions {}) [ManagerOp.acquireOp 1] 1).1,
   (release_without_pool_frame (mergeOptions {}) [ManagerOp.acquireOp 1] 1).2.1 rfl,
   (release_without_pool_frame (mergeOptions {}) [ManagerOp.acquireOp 1] 1).2.2.2⟩

/-- C6 counterexample: a caller-supplied partial slowPool record replaces the whole
default record, so the unspecified nested field elapsedThreshold does NOT take its
documented default of 25 — it is absent after the merge. -/
theorem shallow_merge_drops_nested_default_cex :
    (mergeOptions { slowPool := some { log := some true, elapsedThreshold := none } }
      ).slowPool.elapsedThreshold ≠ some 25 := by
  decide

/-- C6 (amended): the configuration is resolved once at construction by a SHALLOW
merge: every top-level option the caller leaves unspecified takes its default, but a
caller-supplied slowPool or emitter record replaces the corresponding default record
wholesale, so nested fields the caller leaves unspecified (such as
slowPool.elapsedThreshold) are absent after the merge rather than defaulted. -/
theorem options_merge_shallow_semantics (p : PartialOptions) (sp : SlowPool)
    (em : Option Emitter) :
    (p.host = none → (mergeOptions p).host = DEFAULTS.host) ∧
    (p.port = none → (mergeOptions p).port = DEFAULTS.port) ∧
    (p.max = none → (mergeOptions p).max = DEFAULTS.max) ∧
    (p.idleTimeoutMillis = none → (mergeOptions p).idleTimeoutMillis = DEFAULTS.idleTimeoutMillis) ∧
    (p.reapIntervalMillis = none → (mergeOptions p).reapIntervalMillis = DEFAULTS.reapIntervalMillis) ∧
    (p.noReadyCheck = none → (mergeOptions p).noReadyCheck = DEFAULTS.noReadyCheck) ∧
    (p.returnToHead = none → (mergeOptions p).returnToHead = DEFAULTS.returnToHead) ∧
    (p.unwatchOnRelease = none → (mergeOptions p).unwatchOnRelease = DEFAULTS.unwatchOnRelease) ∧
    (p.name = none → (mergeOptions p).name = DEFAULTS.name) ∧
    (p.slowPool = none → (mergeOptions p).slowPool = DEFAULTS.slowPool) ∧
    (p.emitter = none → (mergeOptions p).emitter = DEFAULTS.emitter) ∧
    (p.commands = none → (mergeOptions p).commands = DEFAULTS.commands) ∧
    (p.slowPool = some sp → (mergeOptions p).slowPool = sp) ∧
    (p.emitter = some em → (mergeOptions p).emitter = em) ∧
    (mergeOptions { slowPool := some { log := some true, elapsedThreshold := none } }
      ).slowPool.elapsedThreshold = none := by
  refine ⟨?_, ?_, ?_, ?_, ?_, ?_, ?_, ?_, ?_, ?_, ?_, ?_, ?_, ?_, rfl⟩ <;>
    (intro h; simp [mergeOptions, h])

/-- C6 witness: the amended theorem at a concrete partial record that sets only a
partial slowPool, discharging the hypotheses there. -/
theorem options_merge_shallow_semantics_witness :
    (mergeOptions { slowPool := some { log := some true, elapsedThreshold := none } }
      ).name = DEFAULTS.name ∧
    (mergeOptions { slowPool := some { log := some true, elapsedThreshold := none } }
      ).slowPool = { log := some true, elapsedThreshold := none } :=
  ⟨(options_merge_shallow_semantics
      { slowPool := some { log := some true, elapsedThreshold := none } }
      { log := some true, elapsedThreshold := none } none).2.2.2.2.2.2.2.2.1 rfl,
   (options_merge_shallow_semantics
      { slowPool := some { log := some true, elapsedThreshold := none } }
      { log := some true, elapsedThreshold := none } none).2.2.2.2.2.2.2.2.2.2.2.2.1 rfl⟩

/-- C7: with slowPool.log = true and elapsedThreshold = 25, a successful acquire
measuring at least 26 ms emits exactly one log record carrying the pool name, the
database id, action "acquire", the elapsed time and the pending count, and an
acquire measuring under 25 ms emits none. -/
theorem slow_acquire_log_threshold (o : Options) (db elapsed waiting : Nat)
    (hlog : o.slowPool.log = some true) (hthr : o.slowPool.elapsedThreshold = some 25) :
    (26 ≤ elapsed → slowAcquireLog o db elapsed waiting =
      [{ name := o.name, db := db, action := "acquire", elapsed := elapsed,
         waiting := waiting }]) ∧
    (elapsed < 25 → slowAcquireLog o db elapsed waiting = []) := by
  constructor
  · intro h
    have hf : slowLogFires o elapsed = true := by
      simp only [slowLogFires, hlog, hthr, Option.getD_some, Bool.true_and]
      simpa using Nat.lt_of_lt_of_le (by omega) h
    simp [slowAcquireLog, hf]
  · intro h
    have hf : slowLogFires o elapsed = false := by
      simp only [slowLogFires, hlog, hthr, Option.getD_some, Bool.true_and]
      simpa using by omega
    simp [slowAcquireLog, hf]

/-- C7 witness: the theorem at the concrete slow-log options, database 0, pending 2,
elapsed 30 (logged once) and elapsed 10 (not logged). -/
theorem slow_acquire_log_threshold_witness :
    slowOpts.slowPool.log = some true ∧
    slowAcquireLog slowOpts 0 30 2 =
      [{ name := "default", db := 0, action := "acquire", elapsed := 30, waiting := 2 }] ∧
    slowAcquireLog slowOpts 0 10 2 = [] :=
  ⟨rfl,
   (slow_acquire_log_threshold slowOpts 0 30 2 rfl rfl).1 (by omega),
   (slow_acquire_log_threshold slowOpts 0 10 2 rfl rfl).2 (by omega)⟩

/-- C10: whenever the resolved emitter option is absent (or null), or its
statusInterval is absent, null, or 0, the interval used for the status timer is
exactly 60000 ms — a statusInterval of 0 neither disables the timer nor yields a
0 ms interval. -/
theorem status_interval_defaults_to_60000 (o : Options)
    (h : o.emitter = none ∨ o.emitter = some { statusInterval := none } ∨
         o.emitter = some { statusInterval := some 0 }) :
    getStatusDelay o = 60000 ∧ getStatusDelay o ≠ 0 := by
  have hd : getStatusDelay o = 60000 := by
    rcases h with h | h | h <;> simp [getStatusDelay, h, DEFAULT_STATUS_INTERVAL]
  exact ⟨hd, by rw [hd]; decide⟩

/-- C10 witness: the theorem at a concrete configuration whose caller passed
emitter.statusInterval = 0; the constructor's timer interval evaluates to 60000. -/
theorem status_interval_defaults_to_60000_witness :
    (mergeOptions { emitter := some (some { statusInterval := some 0 }) }).emitter =
      some { statusInterval := some 0 } ∧
    getStatusDelay (mergeOptions { emitter := some (some { statusInterval := some 0 }) }) = 60000 ∧
    (constructorEffects { emitter := some (some { statusInterval := some 0 }) }
      ).statusTimerInterval = 60000 :=
  ⟨rfl,
   (status_interval_defaults_to_60000
      (mergeOptions { emitter := some (some { statusInterval := some 0 }) })
      (Or.inr (Or.inr rfl))).1,
   (status_interval_defaults_to_60000
      (mergeOptions { emitter := some (some { statusInterval := some 0 }) })
      (Or.inr (Or.inr rfl))).1⟩

/-- C9: for every database id, over any sequence of acquire/release calls, exactly
one pool is created for that id — on its first acquire, and zero pools when it is
never acquired — and once registered the pool is never removed or replaced: every
later call, however long the run continues, still finds that same pool instance. -/
theorem pool_created_once_and_stable (ops extra : List ManagerOp) (db : Nat) :
    creationCount (runOps ops) db = (if ManagerOp.acquireOp db ∈ ops then 1 else 0) ∧
    ∀ pid, lookupPool (runOps ops).pools db = some pid →
      lookupPool (runOps (ops ++ extra)).pools db = some pid := by
  constructor
  · have hinit : ∀ d, creationCount initManagerState d =
        if (lookupPool initManagerState.pools d).isSome then 1 else 0 := by
      intro d
      simp [initManagerState, creationCount, lookupPool]
    have hinv := creation_invariant ops initManagerState hinit db
    have hiff := foldl_lookup_isSome ops initManagerState db
    have hnone : lookupPool initManagerState.pools db = none := rfl
    rw [hnone] at hiff
    simp only [Option.isSome_none, Bool.false_or] at hiff
    have hrun : runOps ops = ops.foldl applyOp initManagerState := rfl
    rw [hrun, hinv, hiff]
    by_cases hm : ManagerOp.acquireOp db ∈ ops <;> simp [hm]
  · intro pid h
    have happ : runOps (ops ++ extra) = extra.foldl applyOp (runOps ops) := by
      simp [runOps, List.foldl_append]
    rw [happ]
    exact foldl_lookup_stable extra (runOps ops) db pid h

/-- C9 witness: two acquires and a release on database 0 create exactly one pool,
and the pool registered by the first acquire is still the one found after the rest
of the run. -/
theorem pool_created_once_and_stable_witness :
    creationCount (runOps [ManagerOp.acquireOp 0, ManagerOp.acquireOp 0,
      ManagerOp.releaseOp 0]) 0 = 1 ∧
    lookupPool (runOps ([ManagerOp.acquireOp 0] ++
      [ManagerOp.acquireOp 0, ManagerOp.releaseOp 0])).pools 0 = some 0 := by
  constructor
  · rw [(pool_created_once_and_stable
      [ManagerOp.acquireOp 0, ManagerOp.acquireOp 0, ManagerOp.releaseOp 0] [] 0).1]
    decide
  · exact (pool_created_once_and_stable [ManagerOp.acquireOp 0]
      [ManagerOp.acquireOp 0, ManagerOp.releaseOp 0] 0).2 0 (by decide)

end RedisMPool
